import Mathlib

set_option maxHeartbeats 1000000

/-! Verification model of the redb-tui repository (src/main.rs, src/tui.rs,
src/database.rs, src/layout.rs): the byte interpreter described in the
specification, the navigation state machine of `Tui`, the content refresh,
the dummy database seeding, and the terminal raw-mode lifecycle. -/

/-- Modelled from the spec: little-endian numeric value of a byte sequence
(spec §4.1 prescribes little-endian u16/u32/u64 decodes; no byte-decoding
code exists under src/). Bytes are naturals below 256, least significant
byte first. -/
def leVal : List Nat → Nat
  | [] => 0
  | b :: bs => b + 256 * leVal bs

/-- Modelled from the spec: UTF-8 continuation byte test (0x80..0xBF). -/
def isCont (b : Nat) : Bool := decide (0x80 ≤ b ∧ b ≤ 0xBF)

/-- Modelled from the spec: admissible second byte of a three-byte UTF-8
sequence with lead byte `b` (excludes overlong forms and surrogates). -/
def cont3 (b b1 : Nat) : Bool :=
  if b = 0xE0 then decide (0xA0 ≤ b1 ∧ b1 ≤ 0xBF)
  else if b = 0xED then decide (0x80 ≤ b1 ∧ b1 ≤ 0x9F)
  else decide (0x80 ≤ b1 ∧ b1 ≤ 0xBF)

/-- Modelled from the spec: admissible second byte of a four-byte UTF-8
sequence with lead byte `b` (excludes overlong forms and values above
U+10FFFF). -/
def cont4 (b b1 : Nat) : Bool :=
  if b = 0xF0 then decide (0x90 ≤ b1 ∧ b1 ≤ 0xBF)
  else if b = 0xF4 then decide (0x80 ≤ b1 ∧ b1 ≤ 0x8F)
  else decide (0x80 ≤ b1 ∧ b1 ≤ 0xBF)

/-- Modelled from the spec: strict UTF-8 decoder. The fuel is instantiated
with the length of the list, which bounds the number of decoded characters,
so the `0, _ :: _` arm is never reached from `utf8Decode`. -/
def utf8DecodeAux : Nat → List Nat → Option (List Char)
  | _, [] => some []
  | 0, _ :: _ => none
  | fuel + 1, b :: bs =>
    if b ≤ 0x7F then
      (utf8DecodeAux fuel bs).map (fun cs => Char.ofNat b :: cs)
    else if 0xC2 ≤ b ∧ b ≤ 0xDF then
      match bs with
      | b1 :: rest =>
        if isCont b1 then
          (utf8DecodeAux fuel rest).map
            (fun cs => Char.ofNat ((b - 0xC0) * 0x40 + (b1 - 0x80)) :: cs)
        else none
      | [] => none
    else if 0xE0 ≤ b ∧ b ≤ 0xEF then
      match bs with
      | b1 :: b2 :: rest =>
        if cont3 b b1 && isCont b2 then
          (utf8DecodeAux fuel rest).map
            (fun cs =>
              Char.ofNat
                ((b - 0xE0) * 0x1000 + (b1 - 0x80) * 0x40 + (b2 - 0x80)) :: cs)
        else none
      | _ => none
    else if 0xF0 ≤ b ∧ b ≤ 0xF4 then
      match bs with
      | b1 :: b2 :: b3 :: rest =>
        if cont4 b b1 && isCont b2 && isCont b3 then
          (utf8DecodeAux fuel rest).map
            (fun cs =>
              Char.ofNat
                ((b - 0xF0) * 0x40000 + (b1 - 0x80) * 0x1000 +
                  (b2 - 0x80) * 0x40 + (b3 - 0x80)) :: cs)
        else none
      | _ => none
    else none

/-- Modelled from the spec: strict UTF-8 decoding of a whole byte sequence. -/
def utf8Decode (bs : List Nat) : Option (List Char) := utf8DecodeAux bs.length bs

/-- Modelled from the spec: the Byte Interpreter of spec §4.1 (`interpret`).
No implementation exists under src/; `update_selected_table_content` in
src/tui.rs leaves all raw reading commented out. Ordered dispatch on the
byte-sequence length, first match wins: 0 → Empty; 1 → bool for byte 0/1
else u8; 2/4/8 → little-endian u16/u32/u64; otherwise strict UTF-8 text on
success and a raw-bytes debug form on failure. -/
def interpret (bytes : List Nat) : String :=
  if bytes.length = 0 then "Empty"
  else if bytes.length = 1 then
    let b := bytes.headD 0
    if b = 0 then "bool: false"
    else if b = 1 then "bool: true"
    else "u8: " ++ toString b
  else if bytes.length = 2 then "u16: " ++ toString (leVal bytes)
  else if bytes.length = 4 then "u32: " ++ toString (leVal bytes)
  else if bytes.length = 8 then "u64: " ++ toString (leVal bytes)
  else
    match utf8Decode bytes with
    | some cs => "String: " ++ String.mk cs
    | none => "Raw bytes: " ++ toString bytes

/-- Navigation-relevant state of `Tui` (src/tui.rs): the discovered table
names, the list selection (`ListState::selected`), and the rendered content
pane. The terminal handle and statistics play no part in navigation. -/
structure Tui where
  tableNames : List String
  listSelected : Option Nat
  selectedTableContent : List (String × String)
deriving DecidableEq

/-- The eight placeholder pairs `update_selected_table_content` writes
(src/tui.rs, the vec of ("Key", "Value") tuples under "Fill with dummy
values for now"). -/
def dummyContent : List (String × String) :=
  [("Key", "Value"), ("Key", "Value"), ("Key", "Value"), ("Key", "Value"),
    ("Key", "Value"), ("Key", "Value"), ("Key", "Value"), ("Key", "Value")]

/-- Checked usize subtraction: `a - b` on Rust usize faults on underflow
(overflow checks; with checks off it wraps to a huge value, equally outside
any valid index range); `none` models that fault. -/
def usizeSub (a b : Nat) : Option Nat := if b ≤ a then some (a - b) else none

/-- Tui::new (src/tui.rs): discovers the table names, unconditionally
selects index 0 (`list_state.select(Some(0))`) and starts with an empty
content pane (`selected_table_content: Vec::new()`). -/
def Tui.new (tableNames : List String) : Tui :=
  { tableNames := tableNames, listSelected := some 0, selectedTableContent := [] }

/-- Tui::update_selected_table_content (src/tui.rs): when an index is
selected and a table name exists at it, overwrite the content pane with the
eight placeholder pairs; otherwise leave the state unchanged. The database
is never consulted: the untyped read is commented out in the source. -/
def Tui.updateSelectedTableContent (s : Tui) : Tui :=
  match s.listSelected with
  | some selected =>
    match s.tableNames[selected]? with
    | some _ => { s with selectedTableContent := dummyContent }
    | none => s
  | none => s

/-- Tui::next (src/tui.rs): `i >= len - 1 → 0` else `i + 1`, `None → 0`,
then select the new index and refresh the content. `len - 1` is usize
subtraction, evaluated only in the `Some` arm. -/
def Tui.next (s : Tui) : Option Tui :=
  match s.listSelected with
  | some i =>
    match usizeSub s.tableNames.length 1 with
    | some m =>
      some (Tui.updateSelectedTableContent
        { s with listSelected := some (if i ≥ m then 0 else i + 1) })
    | none => none
  | none => some (Tui.updateSelectedTableContent { s with listSelected := some 0 })

/-- Tui::previous (src/tui.rs): `0 → len - 1` else `i - 1`, `None → 0`,
then select the new index and refresh the content. `len - 1` is usize
subtraction, evaluated only in the `i == 0` branch. -/
def Tui.previous (s : Tui) : Option Tui :=
  match s.listSelected with
  | some i =>
    if i = 0 then
      match usizeSub s.tableNames.length 1 with
      | some m =>
        some (Tui.updateSelectedTableContent { s with listSelected := some m })
      | none => none
    else
      some (Tui.updateSelectedTableContent { s with listSelected := some (i - 1) })
  | none => some (Tui.updateSelectedTableContent { s with listSelected := some 0 })

/-- A navigation input: Down runs `next`, Up runs `previous`. -/
inductive NavOp where
  | next : NavOp
  | prev : NavOp
deriving DecidableEq

/-- Apply one navigation input. -/
def Tui.applyOp : NavOp → Tui → Option Tui
  | NavOp.next, s => Tui.next s
  | NavOp.prev, s => Tui.previous s

/-- Run a finite sequence of navigation inputs, propagating faults. -/
def Tui.runOps : List NavOp → Tui → Option Tui
  | [], s => some s
  | op :: ops, s => (Tui.applyOp op s).bind (Tui.runOps ops)

/-- The run outcome reached a state over the given table names whose cursor
is a valid index below their number. -/
def navOk (names : List String) (r : Option Tui) : Prop :=
  ∃ s, r = some s ∧ s.tableNames = names ∧
    ∃ i, s.listSelected = some i ∧ i < names.length

/-- Keyboard events of the run loop (src/tui.rs): 'q' quits, Down and Up
navigate, anything else is ignored. -/
inductive Key where
  | quit : Key
  | down : Key
  | up : Key
  | other : Key
deriving DecidableEq

/-- The run loop's event handling (src/tui.rs): 'q' returns, Down runs
`next`, Up runs `previous`, anything else is a no-op; drawing does not
change the navigation state or the content pane. -/
def Tui.processKeys : List Key → Tui → Option Tui
  | [], s => some s
  | k :: ks, s =>
    match k with
    | Key.quit => some s
    | Key.down => (Tui.next s).bind (Tui.processKeys ks)
    | Key.up => (Tui.previous s).bind (Tui.processKeys ks)
    | Key.other => Tui.processKeys ks s

/-- The `users` table seeded by create_dummy_database (src/database.rs):
string keys to u32 values, inserted in ascending key order. -/
def usersEntries : List (String × Nat) :=
  [("Alice", 25), ("Bob", 30), ("Charlie", 35)]

/-- The `products` table seeded by create_dummy_database (src/database.rs):
u32 keys to string values, inserted in ascending key order. -/
def productsEntries : List (Nat × String) :=
  [(1, "Laptop"), (2, "Phone"), (3, "Tablet"), (4, "Keyboard"),
    (5, "Wi-fi router"), (6, "Tree")]

/-- Terminal-mode side effects issued by the session (src/tui.rs). -/
inductive TermEv where
  | enableRaw : TermEv
  | enterAlt : TermEv
  | disableRaw : TermEv
  | leaveAlt : TermEv
deriving DecidableEq

/-- Which fallible external calls succeed in one execution: raw-mode entry,
alternate-screen entry, `Tui::new` (database open, terminal backend, table
listing, file metadata), and the run loop. -/
structure ExtOutcome where
  enableRawOk : Bool
  enterAltOk : Bool
  tuiNewOk : Bool
  runOk : Bool
deriving DecidableEq

/-- TuiWrapper::new (src/tui.rs): enable raw mode, enter the alternate
screen, then build `Tui`; each step propagates failure with `?`. Returns
the terminal events issued and whether `Self` was constructed. -/
def tuiWrapperNewTrace (o : ExtOutcome) : List TermEv × Bool :=
  if o.enableRawOk then
    if o.enterAltOk then
      if o.tuiNewOk then ([TermEv.enableRaw, TermEv.enterAlt], true)
      else ([TermEv.enableRaw, TermEv.enterAlt], false)
    else ([TermEv.enableRaw], false)
  else ([], false)

/-- Terminal events of main's use of TuiWrapper (src/main.rs) under Rust
drop semantics: `Drop for TuiWrapper` (disable raw mode, leave the
alternate screen) runs exactly when `TuiWrapper::new` returned `Ok`, i.e.
when the value was constructed; a failure inside `new` propagates before
`Self` exists, so no drop glue runs on that path. After a successful
construction the drop runs whether the run loop returns `Ok` or `Err`. -/
def processTrace (o : ExtOutcome) : List TermEv :=
  match tuiWrapperNewTrace o with
  | (t, true) => t ++ [TermEv.disableRaw, TermEv.leaveAlt]
  | (t, false) => t

/-- Whether the terminal is left in raw mode after a trace of events. -/
def rawModeAfter (t : List TermEv) : Bool :=
  t.foldl
    (fun st e =>
      match e with
      | TermEv.enableRaw => true
      | TermEv.disableRaw => false
      | _ => st)
    false

/-! Helper lemmas shared by the claim theorems. -/

theorem string_append_data (a b : String) : (a ++ b).data = a.data ++ b.data := rfl

theorem raw_ne_string (t u : String) : "Raw bytes: " ++ t ≠ "String: " ++ u := by
  intro h
  have hd := congrArg String.data h
  rw [string_append_data, string_append_data] at hd
  have h1 : "Raw bytes: ".data = 'R' :: "aw bytes: ".data := rfl
  have h2 : "String: ".data = 'S' :: "tring: ".data := rfl
  rw [h1, h2, List.cons_append, List.cons_append] at hd
  injection hd with h3 h4
  exact absurd h3 (by decide)

theorem usizeSub_of_le (a b : Nat) (h : b ≤ a) : usizeSub a b = some (a - b) := by
  unfold usizeSub
  rw [if_pos h]

theorem update_tableNames (s : Tui) :
    (Tui.updateSelectedTableContent s).tableNames = s.tableNames := by
  obtain ⟨names, sel, content⟩ := s
  cases sel with
  | none => rfl
  | some i =>
    cases h : names[i]? with
    | none => simp [Tui.updateSelectedTableContent, h]
    | some v => simp [Tui.updateSelectedTableContent, h]

theorem update_listSelected (s : Tui) :
    (Tui.updateSelectedTableContent s).listSelected = s.listSelected := by
  obtain ⟨names, sel, content⟩ := s
  cases sel with
  | none => rfl
  | some i =>
    cases h : names[i]? with
    | none => simp [Tui.updateSelectedTableContent, h]
    | some v => simp [Tui.updateSelectedTableContent, h]

theorem next_some (names : List String) (i : Nat) (content : List (String × String)) :
    Tui.next ⟨names, some i, content⟩ =
      match usizeSub names.length 1 with
      | some m =>
        some (Tui.updateSelectedTableContent
          ⟨names, some (if i ≥ m then 0 else i + 1), content⟩)
      | none => none := rfl

theorem previous_some (names : List String) (i : Nat) (content : List (String × String)) :
    Tui.previous ⟨names, some i, content⟩ =
      (if i = 0 then
        match usizeSub names.length 1 with
        | some m => some (Tui.updateSelectedTableContent ⟨names, some m, content⟩)
        | none => none
      else
        some (Tui.updateSelectedTableContent ⟨names, some (i - 1), content⟩)) := rfl

theorem next_eq (names : List String) (i : Nat) (content : List (String × String))
    (hN : 1 ≤ names.length) :
    Tui.next ⟨names, some i, content⟩ =
      some (Tui.updateSelectedTableContent
        ⟨names, some (if i ≥ names.length - 1 then 0 else i + 1), content⟩) := by
  rw [next_some, usizeSub_of_le _ _ hN]

theorem previous_eq_zero (names : List String) (content : List (String × String))
    (hN : 1 ≤ names.length) :
    Tui.previous ⟨names, some 0, content⟩ =
      some (Tui.updateSelectedTableContent
        ⟨names, some (names.length - 1), content⟩) := by
  rw [previous_some, if_pos rfl, usizeSub_of_le _ _ hN]

theorem previous_eq_pos (names : List String) (i : Nat) (content : List (String × String))
    (h0 : i ≠ 0) :
    Tui.previous ⟨names, some i, content⟩ =
      some (Tui.updateSelectedTableContent ⟨names, some (i - 1), content⟩) := by
  rw [previous_some, if_neg h0]

theorem next_valid (names : List String) (i : Nat) (content : List (String × String))
    (hN : 1 ≤ names.length) :
    ∃ s', Tui.next ⟨names, some i, content⟩ = some s' ∧ s'.tableNames = names ∧
      ∃ j, s'.listSelected = some j ∧ j < names.length := by
  refine ⟨_, next_eq names i content hN, update_tableNames _, ?_⟩
  refine ⟨if i ≥ names.length - 1 then 0 else i + 1, update_listSelected _, ?_⟩
  split
  · omega
  · omega

theorem previous_valid (names : List String) (i : Nat) (content : List (String × String))
    (hi : i < names.length) (hN : 1 ≤ names.length) :
    ∃ s', Tui.previous ⟨names, some i, content⟩ = some s' ∧ s'.tableNames = names ∧
      ∃ j, s'.listSelected = some j ∧ j < names.length := by
  by_cases h0 : i = 0
  · subst h0
    exact ⟨_, previous_eq_zero names content hN, update_tableNames _,
      names.length - 1, update_listSelected _, by omega⟩
  · exact ⟨_, previous_eq_pos names i content h0, update_tableNames _,
      i - 1, update_listSelected _, by omega⟩

theorem runOps_sound (ops : List NavOp) :
    ∀ s : Tui, 1 ≤ s.tableNames.length →
    (∃ i, s.listSelected = some i ∧ i < s.tableNames.length) →
    ∃ s', Tui.runOps ops s = some s' ∧ s'.tableNames = s.tableNames ∧
      ∃ j, s'.listSelected = some j ∧ j < s.tableNames.length := by
  induction ops with
  | nil =>
    intro s hN hv
    exact ⟨s, rfl, rfl, hv⟩
  | cons op ops ih =>
    intro s hN hv
    obtain ⟨names, sel, content⟩ := s
    obtain ⟨i, hi, hlt⟩ := hv
    have hsel : sel = some i := hi
    subst hsel
    have hN' : 1 ≤ names.length := hN
    have hlt' : i < names.length := hlt
    cases op with
    | next =>
      obtain ⟨s₁, h1, hT, j, hj, hjlt⟩ := next_valid names i content hN'
      obtain ⟨s₂, h2, hT2, k, hk, hklt⟩ :=
        ih s₁ (by rw [hT]; exact hN') ⟨j, hj, by rw [hT]; exact hjlt⟩
      rw [hT] at hklt
      refine ⟨s₂, ?_, ?_, k, hk, hklt⟩
      · show (Tui.next ⟨names, some i, content⟩).bind (Tui.runOps ops) = some s₂
        rw [h1]
        exact h2
      · show s₂.tableNames = names
        rw [hT2, hT]
    | prev =>
      obtain ⟨s₁, h1, hT, j, hj, hjlt⟩ := previous_valid names i content hlt' hN'
      obtain ⟨s₂, h2, hT2, k, hk, hklt⟩ :=
        ih s₁ (by rw [hT]; exact hN') ⟨j, hj, by rw [hT]; exact hjlt⟩
      rw [hT] at hklt
      refine ⟨s₂, ?_, ?_, k, hk, hklt⟩
      · show (Tui.previous ⟨names, some i, content⟩).bind (Tui.runOps ops) = some s₂
        rw [h1]
        exact h2
      · show s₂.tableNames = names
        rw [hT2, hT]

theorem processKeys_no_nav (ks : List Key) :
    ∀ s : Tui, (∀ k ∈ ks, k ≠ Key.down ∧ k ≠ Key.up) →
    Tui.processKeys ks s = some s := by
  induction ks with
  | nil => intro s _; rfl
  | cons k ks ih =>
    intro s h
    have hk := h k (List.mem_cons_self k ks)
    cases k with
    | quit => rfl
    | down => exact absurd rfl hk.1
    | up => exact absurd rfl hk.2
    | other => exact ih s (fun k2 hk2 => h k2 (List.mem_cons_of_mem _ hk2))

/-! The claims. -/

/-- C1: the Byte Interpreter totally dispatches on length: 0 renders
"Empty"; 1 renders the boolean forms for bytes 0 and 1 and the u8 form
otherwise; 2, 4 and 8 render the little-endian u16/u32/u64 value; any other
length renders the UTF-8 text iff the bytes decode as strict UTF-8 and a
raw-bytes form otherwise (the two forms never coincide); `interpret` is a
total function, so no input raises an error. -/
theorem C1_interpret_dispatch :
    (interpret [] = "Empty")
    ∧ (interpret [0] = "bool: false")
    ∧ (interpret [1] = "bool: true")
    ∧ (∀ b : Nat, 2 ≤ b → interpret [b] = "u8: " ++ toString b)
    ∧ (∀ b0 b1 : Nat, interpret [b0, b1] = "u16: " ++ toString (b0 + 256 * b1))
    ∧ (∀ b0 b1 b2 b3 : Nat, interpret [b0, b1, b2, b3] =
        "u32: " ++ toString (b0 + 256 * b1 + 65536 * b2 + 16777216 * b3))
    ∧ (∀ b0 b1 b2 b3 b4 b5 b6 b7 : Nat, interpret [b0, b1, b2, b3, b4, b5, b6, b7] =
        "u64: " ++ toString (b0 + 256 * b1 + 65536 * b2 + 16777216 * b3 +
          4294967296 * b4 + 1099511627776 * b5 + 281474976710656 * b6 +
          72057594037927936 * b7))
    ∧ (∀ bs : List Nat, bs.length ≠ 0 → bs.length ≠ 1 → bs.length ≠ 2 →
        bs.length ≠ 4 → bs.length ≠ 8 →
        interpret bs =
          match utf8Decode bs with
          | some cs => "String: " ++ String.mk cs
          | none => "Raw bytes: " ++ toString bs)
    ∧ (∀ t u : String, "Raw bytes: " ++ t ≠ "String: " ++ u) := by
  refine ⟨rfl, rfl, rfl, ?_, ?_, ?_, ?_, ?_, raw_ne_string⟩
  · intro b hb
    have hb0 : ¬ b = 0 := by omega
    have hb1 : ¬ b = 1 := by omega
    simp [interpret, hb0, hb1]
  · intro b0 b1
    have hv : leVal [b0, b1] = b0 + 256 * b1 := by simp [leVal]
    simp [interpret, hv]
  · intro b0 b1 b2 b3
    have hv : leVal [b0, b1, b2, b3] =
        b0 + 256 * b1 + 65536 * b2 + 16777216 * b3 := by
      simp [leVal]; ring
    simp [interpret, hv]
  · intro b0 b1 b2 b3 b4 b5 b6 b7
    have hv : leVal [b0, b1, b2, b3, b4, b5, b6, b7] =
        b0 + 256 * b1 + 65536 * b2 + 16777216 * b3 + 4294967296 * b4 +
          1099511627776 * b5 + 281474976710656 * b6 + 72057594037927936 * b7 := by
      simp [leVal]; ring
    simp [interpret, hv]
  · intro bs h0 h1 h2 h4 h8
    unfold interpret
    rw [if_neg h0, if_neg h1, if_neg h2, if_neg h4, if_neg h8]

/-- Witness for C1 at concrete inputs: the byte 7 renders as u8, and the
invalid UTF-8 three-byte sequence 255, 254, 253 falls through to the
raw-bytes arm of the dispatch. -/
theorem C1_interpret_dispatch_witness :
    (2 ≤ 7 ∧ interpret [7] = "u8: " ++ toString 7)
    ∧ (([255, 254, 253] : List Nat).length ≠ 0
      ∧ ([255, 254, 253] : List Nat).length ≠ 1
      ∧ ([255, 254, 253] : List Nat).length ≠ 2
      ∧ ([255, 254, 253] : List Nat).length ≠ 4
      ∧ ([255, 254, 253] : List Nat).length ≠ 8
      ∧ interpret [255, 254, 253] =
          match utf8Decode [255, 254, 253] with
          | some cs => "String: " ++ String.mk cs
          | none => "Raw bytes: " ++ toString [255, 254, 253]) :=
  ⟨⟨by decide, C1_interpret_dispatch.2.2.2.1 7 (by decide)⟩,
    by decide, by decide, by decide, by decide, by decide,
    C1_interpret_dispatch.2.2.2.2.2.2.2.1 [255, 254, 253]
      (by decide) (by decide) (by decide) (by decide) (by decide)⟩

/-- C2 (code bug): refreshing the content for the dummy database's `users`
table (3 stored entries) writes the eight constant placeholder pairs, not
one rendered pair per stored entry. -/
theorem C2_refresh_placeholder :
    usersEntries.length = 3
    ∧ (Tui.updateSelectedTableContent
        (Tui.new ["users", "products"])).selectedTableContent = dummyContent
    ∧ dummyContent.length = 8
    ∧ dummyContent.length ≠ usersEntries.length :=
  ⟨rfl, rfl, rfl, by decide⟩

/-- C3: over a non-empty table-name sequence every finite sequence of
Down/Up navigation steps from the startup state succeeds and keeps the
cursor a valid index below N; `next` from index N-1 wraps to 0 and
`previous` from index 0 wraps to N-1. -/
theorem C3_cursor_always_valid (names : List String) (hN : 1 ≤ names.length) :
    (∀ ops : List NavOp, navOk names (Tui.runOps ops (Tui.new names)))
    ∧ (∀ content : List (String × String),
        (Tui.next ⟨names, some (names.length - 1), content⟩).map
          Tui.listSelected = some (some 0))
    ∧ (∀ content : List (String × String),
        (Tui.previous ⟨names, some 0, content⟩).map
          Tui.listSelected = some (some (names.length - 1))) := by
  refine ⟨?_, ?_, ?_⟩
  · intro ops
    have h := runOps_sound ops (Tui.new names) hN ⟨0, rfl, hN⟩
    exact h
  · intro content
    rw [next_eq names (names.length - 1) content hN]
    simp [update_listSelected]
  · intro content
    rw [previous_eq_zero names content hN]
    simp [update_listSelected]

/-- Witness for C3 at the dummy database's table names: a concrete
navigation sequence stays valid, Down from the last index wraps to 0, and
Up from index 0 wraps to the last index. -/
theorem C3_cursor_always_valid_witness :
    1 ≤ (["users", "products"] : List String).length
    ∧ navOk ["users", "products"]
        (Tui.runOps [NavOp.next, NavOp.prev] (Tui.new ["users", "products"]))
    ∧ (Tui.next ⟨["users", "products"], some 1, []⟩).map
        Tui.listSelected = some (some 0)
    ∧ (Tui.previous ⟨["users", "products"], some 0, []⟩).map
        Tui.listSelected = some (some 1) := by
  refine ⟨by decide, ?_, ?_, ?_⟩
  · exact (C3_cursor_always_valid ["users", "products"] (by decide)).1
      [NavOp.next, NavOp.prev]
  · exact (C3_cursor_always_valid ["users", "products"] (by decide)).2.1 []
  · exact (C3_cursor_always_valid ["users", "products"] (by decide)).2.2 []

/-- C4 (code bug): with zero table names the startup cursor is Some 0, not
None; `next` and `previous` evaluate the usize subtraction `len - 1` and
fault (underflow); and from a None cursor `next` selects Some 0 rather than
remaining None, so neither operation is a no-op on the empty sequence. -/
theorem C4_empty_table_list_faults :
    (Tui.new []).listSelected = some 0
    ∧ Tui.next (Tui.new []) = none
    ∧ Tui.previous (Tui.new []) = none
    ∧ (Tui.next ⟨[], none, []⟩).map Tui.listSelected = some (some 0) :=
  ⟨rfl, rfl, rfl, rfl⟩

/-- C5 (code bug): the content refresh can only leave the pane unchanged or
write the eight placeholder pairs — it never produces a single-element
fallback row, and it takes no database argument at all, so a failed table
open can never be signalled. -/
theorem C5_no_fallback_row :
    (∀ s : Tui,
      (Tui.updateSelectedTableContent s).selectedTableContent
          = s.selectedTableContent
      ∨ (Tui.updateSelectedTableContent s).selectedTableContent = dummyContent)
    ∧ dummyContent.length = 8 ∧ dummyContent.length ≠ 1 := by
  refine ⟨?_, rfl, by decide⟩
  intro s
  obtain ⟨names, sel, content⟩ := s
  cases sel with
  | none => exact Or.inl rfl
  | some i =>
    cases h : names[i]? with
    | none => exact Or.inl (by simp [Tui.updateSelectedTableContent, h])
    | some v => exact Or.inr (by simp [Tui.updateSelectedTableContent, h])

/-- C6 (code bug): after one Down transition on the dummy database the
refresh runs immediately and the cursor denotes `products` (6 stored
entries), but the snapshot written is the eight placeholder pairs, not the
rendered content of that table. -/
theorem C6_snapshot_not_rendered :
    (Tui.next (Tui.new ["users", "products"])).map
        (fun s => (s.listSelected, s.selectedTableContent))
      = some (some 1, dummyContent)
    ∧ productsEntries.length = 6
    ∧ dummyContent.length ≠ productsEntries.length :=
  ⟨rfl, rfl, by decide⟩

/-- C8 counterexample: with zero tables the startup cursor is Some 0, not
None as the claim requires for N = 0. -/
theorem C8_counterexample :
    (Tui.new []).listSelected = some 0 ∧ (Tui.new []).listSelected ≠ none :=
  ⟨rfl, by decide⟩

/-- C8 amended: Tui::new initializes the cursor to Some 0 unconditionally,
for every table-name sequence, including the empty one. -/
theorem C8_cursor_initialized_some_zero :
    ∀ names : List String, (Tui.new names).listSelected = some 0 :=
  fun _ => rfl

/-- C9 (code bug): when `Tui::new` fails (e.g. the database cannot be
opened) after raw mode and the alternate screen were entered,
`TuiWrapper::new` propagates the error before the wrapper value exists, no
drop glue runs, and the process ends still in raw mode with zero restore
events — while on the paths where construction succeeds the drop restores
the terminal after both a clean quit and a run-loop error. -/
theorem C9_raw_mode_leak_on_init_failure :
    (processTrace ⟨true, true, false, true⟩).count TermEv.enableRaw = 1
    ∧ (processTrace ⟨true, true, false, true⟩).count TermEv.disableRaw = 0
    ∧ rawModeAfter (processTrace ⟨true, true, false, true⟩) = true
    ∧ rawModeAfter (processTrace ⟨true, true, true, true⟩) = false
    ∧ rawModeAfter (processTrace ⟨true, true, true, false⟩) = false :=
  ⟨rfl, rfl, rfl, rfl, rfl⟩

/-- C10: at startup the snapshot is empty even though the cursor already
denotes index 0, and it stays empty across any input sequence containing no
Down or Up key. -/
theorem C10_initial_snapshot_empty (names : List String) (ks : List Key)
    (h : ∀ k ∈ ks, k ≠ Key.down ∧ k ≠ Key.up) :
    (Tui.new names).selectedTableContent = []
    ∧ (Tui.new names).listSelected = some 0
    ∧ (Tui.processKeys ks (Tui.new names)).map
        (fun s => s.selectedTableContent) = some [] := by
  refine ⟨rfl, rfl, ?_⟩
  rw [processKeys_no_nav ks (Tui.new names) h]
  rfl

/-- Witness for C10: two tables, one ignored key and then quit. -/
theorem C10_initial_snapshot_empty_witness :
    (∀ k ∈ ([Key.other, Key.quit] : List Key), k ≠ Key.down ∧ k ≠ Key.up)
    ∧ ((Tui.new ["users", "products"]).selectedTableContent = []
      ∧ (Tui.new ["users", "products"]).listSelected = some 0
      ∧ (Tui.processKeys [Key.other, Key.quit] (Tui.new ["users", "products"])).map
          (fun s => s.selectedTableContent) = some []) :=
  ⟨by decide,
    C10_initial_snapshot_empty ["users", "products"] [Key.other, Key.quit] (by decide)⟩
